import Mathlib

/-!
# Verification of the `image_scan` repository

This file embeds the parts of the repository that the verified claims are
about.

The repository's Python sources under `app/` contain the HTTP glue: the
food-image scanner (`app/models/image_scanner.py`) and the health-analysis
endpoint (`app/api/endpoints.py`); both are embedded below directly from
the source.

The image-similarity core described by the specification (`compare`,
`label`, the normalizer / extractor / matcher / scorer / ranker pipeline)
is code of this repository that is not present under the sources available
here — only its callers (directory bootstrapping of
`app/static/labeled_images` in `main.py`) are.  Those components are
modelled from the specification's own words; each such definition carries
a doc comment starting with `Modelled from the spec:`.
-/

namespace ImageScan

/-! ## Spec-modelled similarity core

Descriptors are fixed-length numeric vectors compared by L2 distance.
We work throughout with *squared* L2 distances in `ℚ`: for nonnegative
distances `d1 < 0.75 * d2` holds iff `d1^2 < (9/16) * d2^2`, i.e.
`16 * d1^2 < 9 * d2^2`, so the ratio test is stated on squared distances
with the exact rational constant `(3/4)^2 = 9/16`. -/

/-- Modelled from the spec: a Descriptor is a fixed-length numeric vector
summarizing local appearance around one keypoint (§3). -/
abbrev Descriptor := List ℚ

/-- Modelled from the spec: squared Euclidean (L2) distance between two
descriptors (§4.3 "by Euclidean/L2 distance"). -/
def dist2 (a b : Descriptor) : ℚ :=
  (List.zipWith (fun x y => (x - y) ^ 2) a b).sum

/-- Remove the first occurrence of `a` from `l` (used to pass from the
nearest to the second-nearest distance). -/
def eraseFirst (l : List ℚ) (a : ℚ) : List ℚ :=
  match l with
  | [] => []
  | x :: xs => if x = a then xs else x :: eraseFirst xs a

/-- Modelled from the spec: the two smallest entries of a distance list —
the nearest and second-nearest neighbour distances of a k-NN search with
k = 2 (§4.3).  Returns `none` when fewer than two candidates exist. -/
def twoNearest (ds : List ℚ) : Option (ℚ × ℚ) :=
  ds.min?.bind (fun d1 => ((eraseFirst ds d1).min?).map (fun d2 => (d1, d2)))

/-- Modelled from the spec: the ratio test (§4.3) — a query descriptor is a
good match iff its nearest gallery distance is strictly less than `0.75`
times its second-nearest gallery distance (stated on squared distances). -/
def isGoodMatch (q : Descriptor) (g : List Descriptor) : Bool :=
  match twoNearest (g.map (dist2 q)) with
  | some (d1, d2) => decide (16 * d1 < 9 * d2)
  | none => false

/-- Modelled from the spec: the Descriptor Matcher's output — the count of
good matches for one (query, gallery-entry) pair (§4.3). -/
def goodMatchCount (qd gd : List Descriptor) : Nat :=
  qd.countP (fun q => isGoodMatch q gd)

/-- Modelled from the spec: the Similarity Scorer —
`similarity = goodMatchCount / max(Nq, 1)` (§4.4). -/
def similarity (qd gd : List Descriptor) : ℚ :=
  (goodMatchCount qd gd : ℚ) / ((max qd.length 1 : ℕ) : ℚ)

/-! ### Image Normalizer -/

/-- A decoded raster buffer: width, height and row-major pixel data, each
pixel a list of channel values (3 channels, or 4 when an alpha channel is
present). -/
structure Image where
  width : Nat
  height : Nat
  pixels : List (List Nat)

/-- Modelled from the spec: the Image Normalizer (§4.1) — resizes a decoded
raster to exactly 224×224 using a deterministic interpolation
(nearest-neighbour sampling here, "bilinear or equivalent" per the spec)
and converts it to a fixed 3-channel order, discarding the alpha channel
(each output pixel keeps exactly its first three channel values, padding
with 0 when the source pixel is degenerate). -/
def normalizeImage (img : Image) : Image :=
  { width := 224
    height := 224
    pixels := (List.range (224 * 224)).map (fun i =>
      let y := i / 224
      let x := i % 224
      let sy := y * img.height / 224
      let sx := x * img.width / 224
      let p := img.pixels.getD (sy * img.width + sx) []
      (p ++ [0, 0, 0]).take 3) }

/-! ### Gallery Ranker and `compare` -/

/-- Modelled from the spec: the per-entry scores (§4.5) — one
`(label, similarity)` pair per gallery entry whose decode/extract step
succeeded (`none` entries are silently skipped). -/
def scoredEntries (qd : List Descriptor)
    (gallery : List (String × Option (List Descriptor))) : List (String × ℚ) :=
  gallery.filterMap (fun e => e.2.map (fun d => (e.1, similarity qd d)))

/-- Descending order on scored entries: `a` comes before `b` when
`b.2 ≤ a.2`. -/
def descLe (a b : String × ℚ) : Bool :=
  decide (b.2 ≤ a.2)

/-- Modelled from the spec: the Gallery Ranker's sort-and-filter step
(§4.5) — sorts descending by similarity and filters to entries with
similarity ≥ threshold. -/
def rankedEntries (qd : List Descriptor)
    (gallery : List (String × Option (List Descriptor))) (threshold : ℚ) :
    List (String × ℚ) :=
  ((scoredEntries qd gallery).mergeSort descLe).filter
    (fun e => decide (threshold ≤ e.2))

/-- Modelled from the spec: `compare` (§6, §4.5).  The query argument is
the decode+extract result for the query image: `none` when the query path
cannot be decoded (escalated as `DecodeError`), `some qd` otherwise.  Each
gallery element carries its label and the decode+extract result of the
stored image.  Sentinels, in the spec's listed order: empty gallery
directory → `("No matches", 0)`; query with no extractable descriptors →
`("Could not extract features", 0)`; nothing clears the threshold →
`("No matches meet the threshold", 0)`; otherwise the ranked list
truncated to `maxResults`. -/
def compare (query : Option (List Descriptor))
    (gallery : List (String × Option (List Descriptor)))
    (maxResults : Nat) (threshold : ℚ) : Except String (List (String × ℚ)) :=
  match query with
  | none => Except.error "DecodeError"
  | some qd =>
    if gallery.isEmpty then Except.ok [("No matches", 0)]
    else if qd.isEmpty then Except.ok [("Could not extract features", 0)]
    else if (rankedEntries qd gallery threshold).isEmpty then
      Except.ok [("No matches meet the threshold", 0)]
    else Except.ok ((rankedEntries qd gallery threshold).take maxResults)

/-! ### Gallery Writer and `label` -/

/-- Modelled from the spec: the label-derived storage filename (§4.6) —
lower-case the label, replace spaces with underscores, append a fixed
image extension. -/
def storedFilename (label : String) : String :=
  (label.toLower.replace " " "_") ++ ".jpg"

/-- The gallery directory as a listing of (filename, stored image)
entries; a filesystem listing holds each filename at most once. -/
abbrev Gallery := List (String × Image)

/-- Write `img` under `name`: overwrite the existing entry with that
filename in place, or append a new entry when none exists. -/
def writeEntry (g : Gallery) (name : String) (img : Image) : Gallery :=
  match g with
  | [] => [(name, img)]
  | (n, i) :: rest =>
    if n = name then (n, img) :: rest
    else (n, i) :: writeEntry rest name img

/-- Number of gallery entries stored under `name`. -/
def countName (g : Gallery) (name : String) : Nat :=
  (g.filter (fun e => decide (e.1 = name))).length

/-- Modelled from the spec: the `label` operation (§4.6, §6).  Its
interaction with the outside world is made explicit: `src` is the decode
result of the source image path (`none` when the bytes cannot be decoded)
and `writable` tells whether the gallery directory accepts the write.
Decodes, resizes to the canonical 224×224, and writes under the derived
filename; returns the stored path on success or a diagnostic message on
failure, never touching the gallery on failure. -/
def labelOp (src : Option Image) (writable : Bool) (lab : String)
    (g : Gallery) : Except String String × Gallery :=
  match src with
  | none => (Except.error "DecodeError: cannot decode source image", g)
  | some img =>
    if writable then
      (Except.ok (storedFilename lab),
        writeEntry g (storedFilename lab) (normalizeImage img))
    else (Except.error "StorageWriteError: cannot write gallery file", g)

/-! ## `app/models/image_scanner.py`

Embedding of `ImageScanner.scan_food_image` and
`ImageScanner._extract_nutritional_info`.  The whole body of
`scan_food_image` sits inside one `try`; everything that can raise (the
file open, the OpenAI call, indexing into the response) is summarised by
an `Except String String` argument: `Except.ok text` is the response text
obtained without an exception, `Except.error e` an exception whose
`str(e)` is `e`. -/

/-- The dictionary built by `scan_food_image` /
`_extract_nutritional_info`: a fixed set of string-valued keys plus an
optional `error` entry. -/
structure NutritionalInfo where
  food_item : String
  protein : String
  details : String
  ingredients : String
  calories : String
  fat : String
  carbs : String
  recipe : String
  error : Option String
deriving DecidableEq

/-- The fields that `_extract_nutritional_info` tracks as `current_field`
for multi-line continuation. -/
inductive MultiField
  | details
  | ingredients
  | recipe
deriving DecidableEq

/-- Python's `x.strip() or "N/A"`: an empty (falsy) string becomes
`"N/A"`. -/
def orNA (s : String) : String :=
  if s.isEmpty then "N/A" else s

/-- Read the `current_field` component of the info dictionary. -/
def getMulti (info : NutritionalInfo) : MultiField → String
  | MultiField.details => info.details
  | MultiField.ingredients => info.ingredients
  | MultiField.recipe => info.recipe

/-- The `elif current_field and line:` branch: start or continue the
multi-line value of `current_field`. -/
def appendMulti (info : NutritionalInfo) (mf : MultiField) (line : String) :
    NutritionalInfo :=
  let v := getMulti info mf
  let v' := if v = "N/A" then line else v ++ "\n" ++ line
  match mf with
  | MultiField.details => { info with details := v' }
  | MultiField.ingredients => { info with ingredients := v' }
  | MultiField.recipe => { info with recipe := v' }

/-- One iteration of the `for line in lines` loop of
`_extract_nutritional_info`: the state is the info dictionary together
with `current_field`. -/
def processLine (st : NutritionalInfo × Option MultiField) (rawLine : String) :
    NutritionalInfo × Option MultiField :=
  let line := rawLine.trim
  if line.isEmpty then st
  else if line.toLower.startsWith "food item:" then
    ({ st.1 with food_item := orNA (line.drop 10).trim }, none)
  else if line.toLower.startsWith "protein:" then
    ({ st.1 with protein := orNA (line.drop 8).trim }, none)
  else if line.toLower.startsWith "details:" then
    ({ st.1 with details := orNA (line.drop 8).trim }, some MultiField.details)
  else if line.toLower.startsWith "ingredients:" then
    ({ st.1 with ingredients := orNA (line.drop 12).trim },
      some MultiField.ingredients)
  else if line.toLower.startsWith "calories:" then
    ({ st.1 with calories := orNA (line.drop 9).trim }, none)
  else if line.toLower.startsWith "fat:" then
    ({ st.1 with fat := orNA (line.drop 4).trim }, none)
  else if line.toLower.startsWith "carbs:" then
    ({ st.1 with carbs := orNA (line.drop 6).trim }, none)
  else if line.toLower.startsWith "recipe:" then
    ({ st.1 with recipe := orNA (line.drop 7).trim }, some MultiField.recipe)
  else
    match st.2 with
    | some mf => (appendMulti st.1 mf line, st.2)
    | none => st

/-- The initial info dictionary of `_extract_nutritional_info`: every key
`"N/A"`, `error` set to `None`. -/
def initInfo : NutritionalInfo :=
  { food_item := "N/A", protein := "N/A", details := "N/A"
    ingredients := "N/A", calories := "N/A", fat := "N/A"
    carbs := "N/A", recipe := "N/A", error := none }

/-- `ImageScanner._extract_nutritional_info`: split the stripped response
text into lines and fold the per-line parser over them.  (The trailing
`if "error" in info and not info["error"]: info["error"] = None` of the
source is the identity — `error` starts as `None` and no branch of the
loop writes it — so it adds nothing here.) -/
def extract_nutritional_info (text : String) : NutritionalInfo :=
  ((text.trim.splitOn "\n").foldl processLine (initInfo, none)).1

/-- The dictionary returned by `scan_food_image`'s `except` branch. -/
def errorInfo (msg : String) : NutritionalInfo :=
  { error := some ("Error analyzing image: " ++ msg)
    food_item := "N/A", protein := "N/A"
    details := "Unable to process image"
    ingredients := "N/A", calories := "N/A", fat := "N/A"
    carbs := "N/A", recipe := "N/A" }

/-- `ImageScanner.scan_food_image`: on a response text, extract the
structured info; on any exception, return the fixed error dictionary. -/
def scan_food_image (outcome : Except String String) : NutritionalInfo :=
  match outcome with
  | Except.ok text => extract_nutritional_info text
  | Except.error e => errorInfo e

/-! ## `app/api/endpoints.py` — `analyze_health_data`

Embedding of the `abnormal_readings` computation.  The request floats are
modelled as `ℚ`; Python's `int(...)` parse of the blood-pressure parts is
modelled by `String.toInt?` (both accept an optional sign followed by
digits and reject non-numeric text; the exact accepted set plays no role
in the claims).  The `normal_ranges` constants `80` and `120` are the
parse of the literal `"80-120"` performed by the source. -/

/-- A value recorded inside one abnormal-reading entry: the offending
float, the raw blood-pressure string, or a numeric normal range. -/
inductive RVal
  | num : ℚ → RVal
  | str : String → RVal
  | range : ℚ → ℚ → RVal
deriving DecidableEq

/-- One entry of the `abnormal_readings` dictionary. -/
structure AbnormalReading where
  value : RVal
  normal_range : RVal
  note : Option String := none
deriving DecidableEq

/-- The fields of the `HealthData` request model. -/
structure HealthData where
  oxygen_saturation : ℚ
  pulse_rate : ℚ
  blood_pressure : String
  body_temperature : ℚ
  blood_sugar : ℚ
  rest_urine : ℚ
  water_intake : ℚ

/-- The blood-pressure check of `analyze_health_data`: split on `"/"`;
with exactly two parts, parse both as integers — a parse failure is the
`except` branch recording the invalid-format note; in range means
`80 ≤ v ≤ 120` for both parts.  Any other part count adds nothing. -/
def bpReading (bp : String) : List (String × AbnormalReading) :=
  let parts := bp.splitOn "/"
  if parts.length = 2 then
    match (parts.getD 0 "").toInt?, (parts.getD 1 "").toInt? with
    | some systolic, some diastolic =>
      if systolic < 80 ∨ systolic > 120 ∨ diastolic < 80 ∨ diastolic > 120 then
        [("blood_pressure",
          { value := RVal.str bp, normal_range := RVal.str "80-120" })]
      else []
    | _, _ =>
      [("blood_pressure",
        { value := RVal.str bp, normal_range := RVal.str "80-120"
          note := some "Invalid format. Should be systolic/diastolic (e.g., 120/80)" })]
  else []

/-- The `abnormal_readings` dictionary built by `analyze_health_data`,
as its (key, entry) pairs in insertion order.  The source checks, in
order: pulse rate (the spot its own comment reserves for oxygen
saturation), blood pressure, body temperature, blood sugar, rest urine
and water intake — and never the `oxygen_saturation` field. -/
def abnormalReadings (h : HealthData) : List (String × AbnormalReading) :=
  (if h.pulse_rate < 50 ∨ h.pulse_rate > 100 then
    [("pulse_rate",
      { value := RVal.num h.pulse_rate, normal_range := RVal.range 50 100 })]
  else []) ++
  bpReading h.blood_pressure ++
  (if h.body_temperature < 95 ∨ h.body_temperature > 105 then
    [("body_temperature",
      { value := RVal.num h.body_temperature,
        normal_range := RVal.range 95 105 })]
  else []) ++
  (if h.blood_sugar < 70 ∨ h.blood_sugar > 140 then
    [("blood_sugar",
      { value := RVal.num h.blood_sugar, normal_range := RVal.range 70 140 })]
  else []) ++
  (if h.rest_urine < 800 ∨ h.rest_urine > 2000 then
    [("rest_urine",
      { value := RVal.num h.rest_urine, normal_range := RVal.range 800 2000 })]
  else []) ++
  (if h.water_intake < 27/10 ∨ h.water_intake > 37/10 then
    [("water_intake",
      { value := RVal.num h.water_intake,
        normal_range := RVal.range (27/10) (37/10) })]
  else [])

/-! ## Theorems -/

/-- Characterization of `List.min?` on `ℚ`: the returned element is a
member that bounds every member from below. -/
theorem rat_min?_eq_some_iff {xs : List ℚ} {a : ℚ} :
    xs.min? = some a ↔ a ∈ xs ∧ ∀ b ∈ xs, a ≤ b := by
  have anti : Std.Antisymm ((· : ℚ) ≤ ·) := ⟨fun h1 h2 => le_antisymm h1 h2⟩
  exact List.min?_eq_some_iff (fun a => le_refl a) (fun a b => min_choice a b)
    (fun a b c => le_min_iff)

/-- The property, in the words of the spec, of being the nearest and
second-nearest distances within a distance list: `d1` is a member below
every member, and `d2` is a member of the list with one copy of `d1`
removed that is below every member of that remainder. -/
def IsTwoNearest (ds : List ℚ) (d1 d2 : ℚ) : Prop :=
  (d1 ∈ ds ∧ ∀ d ∈ ds, d1 ≤ d) ∧
  (d2 ∈ eraseFirst ds d1 ∧ ∀ d ∈ eraseFirst ds d1, d2 ≤ d)

/-- `twoNearest` computes exactly the nearest/second-nearest pair. -/
theorem twoNearest_eq_some_iff {ds : List ℚ} {d1 d2 : ℚ} :
    twoNearest ds = some (d1, d2) ↔ IsTwoNearest ds d1 d2 := by
  simp only [twoNearest, Option.bind_eq_some, Option.map_eq_some', IsTwoNearest]
  constructor
  · rintro ⟨a, ha, b, hb, hab⟩
    cases hab
    exact ⟨rat_min?_eq_some_iff.mp ha, rat_min?_eq_some_iff.mp hb⟩
  · rintro ⟨h1, h2⟩
    exact ⟨d1, rat_min?_eq_some_iff.mpr h1, d2, rat_min?_eq_some_iff.mpr h2, rfl⟩

/-- A gallery descriptor set with fewer than two descriptors has no
second-nearest neighbour, so it yields zero good matches. -/
theorem goodMatchCount_of_short (qd gd : List Descriptor)
    (hlen : gd.length ≤ 1) : goodMatchCount qd gd = 0 := by
  apply List.countP_eq_zero.mpr
  intro q _
  rcases gd with _ | ⟨g1, _ | ⟨g2, rest⟩⟩
  · simp [isGoodMatch, twoNearest, List.min?]
  · have hnone : twoNearest [dist2 q g1] = none := by
      simp [twoNearest, List.min?, eraseFirst]
    simp [isGoodMatch, hnone]
  · simp at hlen

/-- Claim C2: for every query descriptor sequence and gallery descriptor
sequence, the Descriptor Matcher returns exactly the number of query
descriptors whose nearest gallery descriptor (by L2 distance) is strictly
closer than `0.75` times the distance to the second-nearest (on squared
distances: `16·d1 < 9·d2`); and every gallery entry with descriptor count
`0` or `1` contributes a good-match count of `0` (the matcher is a total
function, so no error is possible). -/
theorem matcher_ratio_test (qd gd : List Descriptor) :
    (gd.length ≤ 1 → goodMatchCount qd gd = 0) ∧
    goodMatchCount qd gd = (qd.filter (fun q => isGoodMatch q gd)).length ∧
    (∀ q : Descriptor, isGoodMatch q gd = true ↔
      ∃ d1 d2, IsTwoNearest (gd.map (dist2 q)) d1 d2 ∧ 16 * d1 < 9 * d2) := by
  refine ⟨goodMatchCount_of_short qd gd,
    by rw [goodMatchCount, List.countP_eq_length_filter], ?_⟩
  intro q
  rw [isGoodMatch]
  cases h : twoNearest (List.map (dist2 q) gd) with
  | none =>
    simp only [Bool.false_eq_true, false_iff, not_exists]
    intro d1 d2 hspec
    have h2 := twoNearest_eq_some_iff.mpr hspec.1
    rw [h] at h2
    cases h2
  | some p =>
    cases p with
    | mk d1 d2 =>
      constructor
      · intro hd
        exact ⟨d1, d2, twoNearest_eq_some_iff.mp h, of_decide_eq_true hd⟩
      · rintro ⟨e1, e2, hspec, hlt⟩
        have h2 := twoNearest_eq_some_iff.mpr hspec
        rw [h] at h2
        injection h2 with h2
        cases h2
        exact decide_eq_true hlt

/-- Concrete instance of `matcher_ratio_test`: an empty gallery descriptor
set yields zero good matches. -/
theorem matcher_ratio_test_witness : goodMatchCount [[(1 : ℚ)]] [] = 0 :=
  (matcher_ratio_test [[(1 : ℚ)]] []).1 (by decide)

/-- Claim C3: for every (query, gallery-entry) pair the Similarity Scorer
returns exactly `goodMatchCount / max(Nq, 1)`, and a query with zero
descriptors scores `0` against every gallery entry (the `max` keeps the
denominator nonzero, so no division-by-zero error can occur). -/
theorem scorer_contract (qd gd : List Descriptor) :
    similarity qd gd = (goodMatchCount qd gd : ℚ) / ((max qd.length 1 : ℕ) : ℚ) ∧
    (qd.length = 0 → similarity qd gd = 0) := by
  refine ⟨rfl, ?_⟩
  intro h
  have hq : qd = [] := List.length_eq_zero.mp h
  subst hq
  simp [similarity, goodMatchCount]

/-- Concrete instance of `scorer_contract`: the empty query scores `0`. -/
theorem scorer_contract_witness : similarity [] [[(1 : ℚ)]] = 0 :=
  (scorer_contract [] [[(1 : ℚ)]]).2 rfl

/-- Claim C6: for every decoded input image, whatever its width, height or
aspect ratio, the normalized output is exactly 224×224 (both the recorded
dimensions and the pixel count) and every output pixel has exactly 3
channel values, the alpha channel being discarded. -/
theorem normalizer_contract (img : Image) :
    (normalizeImage img).width = 224 ∧
    (normalizeImage img).height = 224 ∧
    (normalizeImage img).pixels.length = 224 * 224 ∧
    (normalizeImage img).pixels.all (fun p => p.length == 3) = true := by
  have key : ∀ (f : Nat → List Nat), (∀ i, (f i).length = 3) →
      ∀ n : Nat, ((List.range n).map f).all (fun p => p.length == 3) = true := by
    intro f hf n
    rw [List.all_eq_true]
    intro p hp
    rw [List.mem_map] at hp
    obtain ⟨i, _, rfl⟩ := hp
    simp [hf i]
  refine ⟨rfl, rfl, by rw [normalizeImage, List.length_map, List.length_range], ?_⟩
  rw [normalizeImage]
  apply key
  intro i
  simp [List.length_take, List.length_append]

/-- Writing under a name, then writing under the same name again, equals
writing once with the last image. -/
theorem writeEntry_writeEntry (g : Gallery) (n : String) (i1 i2 : Image) :
    writeEntry (writeEntry g n i1) n i2 = writeEntry g n i2 := by
  induction g with
  | nil => simp [writeEntry]
  | cons e rest ih =>
    obtain ⟨m, j⟩ := e
    by_cases hm : m = n
    · simp [writeEntry, hm]
    · simp [writeEntry, hm, ih]

/-- Unfolding `countName` over a cons cell. -/
theorem countName_cons (m : String) (j : Image) (rest : Gallery) (n : String) :
    countName ((m, j) :: rest) n =
      (if m = n then 1 else 0) + countName rest n := by
  by_cases hm : m = n <;> simp [countName, List.filter_cons, hm, Nat.add_comm]

/-- After a write, a gallery whose listing held the written name at most
once holds it exactly once. -/
theorem countName_writeEntry (g : Gallery) (n : String) (img : Image)
    (h : countName g n ≤ 1) : countName (writeEntry g n img) n = 1 := by
  induction g with
  | nil => simp [writeEntry, countName, List.filter_cons]
  | cons e rest ih =>
    obtain ⟨m, j⟩ := e
    by_cases hm : m = n
    · subst hm
      rw [countName_cons] at h
      rw [if_pos rfl] at h
      have hrest : countName rest m = 0 := by omega
      simp [writeEntry, countName_cons, hrest]
    · rw [countName_cons, if_neg hm] at h
      simp only [Nat.zero_add] at h
      simp [writeEntry, hm, countName_cons, ih h]

/-- Claim C7: the Gallery Writer stores under the filename obtained by
lower-casing the label, replacing spaces with underscores and appending
the fixed `.jpg` extension; writing the same label twice equals writing it
once with the last image, and (in a gallery listing that held the derived
filename at most once, as a filesystem directory does) the entry count for
that label is exactly `1` after the write. -/
theorem gallery_writer_idempotent (g : Gallery) (lab : String) (i1 i2 : Image)
    (h : countName g (storedFilename lab) ≤ 1) :
    storedFilename lab = (lab.toLower.replace " " "_") ++ ".jpg" ∧
    writeEntry (writeEntry g (storedFilename lab) i1) (storedFilename lab) i2 =
      writeEntry g (storedFilename lab) i2 ∧
    countName (writeEntry g (storedFilename lab) i2) (storedFilename lab) = 1 :=
  ⟨rfl, writeEntry_writeEntry g (storedFilename lab) i1 i2,
    countName_writeEntry g (storedFilename lab) i2 h⟩

/-- Concrete instance of `gallery_writer_idempotent`: labeling an empty
gallery with `"Red Apple"` leaves exactly one `red_apple.jpg` entry. -/
theorem gallery_writer_idempotent_witness :
    countName (writeEntry [] (storedFilename "Red Apple") ⟨1, 1, [[0, 0, 0]]⟩)
      (storedFilename "Red Apple") = 1 :=
  (gallery_writer_idempotent [] "Red Apple" ⟨1, 1, [[0, 0, 0]]⟩
    ⟨1, 1, [[0, 0, 0]]⟩ (by simp [countName])).2.2

/-- Claim C8: the `label` operation is a total function of its inputs — it
returns either success carrying the final stored path together with the
updated gallery, or a structured failure message leaving the gallery
exactly as it was (no partially-written entry), for every combination of
decode result and directory writability. -/
theorem label_boundary (src : Option Image) (w : Bool) (lab : String)
    (g : Gallery) :
    (∃ img, src = some img ∧ w = true ∧
      labelOp src w lab g =
        (Except.ok (storedFilename lab),
          writeEntry g (storedFilename lab) (normalizeImage img))) ∨
    ((∃ msg, (labelOp src w lab g).1 = Except.error msg) ∧
      (labelOp src w lab g).2 = g) := by
  cases src with
  | none => exact Or.inr ⟨⟨_, rfl⟩, rfl⟩
  | some img =>
    cases w with
    | true => exact Or.inl ⟨img, rfl, rfl, rfl⟩
    | false => exact Or.inr ⟨⟨_, rfl⟩, rfl⟩

/-- Claim C9 counterexample: on an internal exception,
`scan_food_image` does not set every non-error key to `"N/A"` — the
`details` key carries `"Unable to process image"` instead. -/
theorem scan_food_image_details_counterexample :
    (scan_food_image (Except.error "boom")).details = "Unable to process image" ∧
    ("Unable to process image" : String) ≠ "N/A" :=
  ⟨rfl, by decide⟩

/-- Claim C9, amended: `scan_food_image` is a total function of the
outcome of its guarded body (so no exception escapes it), and on any
internal exception with message `e` it returns the dictionary whose
`error` key is `"Error analyzing image: " ++ e` and whose `food_item`,
`protein`, `ingredients`, `calories`, `fat`, `carbs` and `recipe` keys are
all `"N/A"` — while `details` is `"Unable to process image"`. -/
theorem scan_food_image_error_branch (e : String) :
    (scan_food_image (Except.error e)).error =
      some ("Error analyzing image: " ++ e) ∧
    (scan_food_image (Except.error e)).food_item = "N/A" ∧
    (scan_food_image (Except.error e)).protein = "N/A" ∧
    (scan_food_image (Except.error e)).details = "Unable to process image" ∧
    (scan_food_image (Except.error e)).ingredients = "N/A" ∧
    (scan_food_image (Except.error e)).calories = "N/A" ∧
    (scan_food_image (Except.error e)).fat = "N/A" ∧
    (scan_food_image (Except.error e)).carbs = "N/A" ∧
    (scan_food_image (Except.error e)).recipe = "N/A" :=
  ⟨rfl, rfl, rfl, rfl, rfl, rfl, rfl, rfl, rfl⟩

/-- Claim C10: the `abnormal_readings` dictionary built by
`analyze_health_data` never contains the key `"oxygen_saturation"`, and it
does not depend on the `oxygen_saturation` field at all — the reading is
accepted but never checked against its normal range. -/
theorem analyze_no_oxygen_key (h : HealthData) :
    (((abnormalReadings h).map Prod.fst).contains "oxygen_saturation") = false ∧
    (∀ x : ℚ, abnormalReadings { h with oxygen_saturation := x } =
      abnormalReadings h) := by
  refine ⟨?_, fun x => rfl⟩
  have hbp : ∀ p ∈ bpReading h.blood_pressure, p.1 = "blood_pressure" := by
    intro p hp
    simp only [bpReading] at hp
    split at hp
    · split at hp
      · split at hp
        · simp at hp
          rw [hp]
        · simp at hp
      · simp at hp
        rw [hp]
    · simp at hp
  have hmem : ∀ p ∈ abnormalReadings h, p.1 ≠ "oxygen_saturation" := by
    intro p hp
    unfold abnormalReadings at hp
    simp only [List.mem_append] at hp
    rcases hp with ((((h1 | h2) | h3) | h4) | h5) | h6
    · split at h1 <;> simp_all
    · rw [hbp p h2]; decide
    · split at h3 <;> simp_all
    · split at h4 <;> simp_all
    · split at h5 <;> simp_all
    · split at h6 <;> simp_all
  rw [Bool.eq_false_iff]
  intro hc
  have hmm : "oxygen_saturation" ∈ (abnormalReadings h).map Prod.fst :=
    List.mem_of_elem_eq_true hc
  obtain ⟨p, hp, hk⟩ := List.mem_map.mp hmm
  exact hmem p hp hk

/-- The ranked list is sorted by descending similarity. -/
theorem rankedEntries_sorted (qd : List Descriptor)
    (gallery : List (String × Option (List Descriptor))) (threshold : ℚ) :
    (rankedEntries qd gallery threshold).Pairwise (fun a b => b.2 ≤ a.2) := by
  have hs : ((scoredEntries qd gallery).mergeSort descLe).Pairwise
      (fun a b => descLe a b = true) :=
    List.sorted_mergeSort
      (fun a b c hab hbc => by
        simp only [descLe, decide_eq_true_eq] at hab hbc ⊢
        exact le_trans hbc hab)
      (fun a b => by
        simp only [descLe, Bool.or_eq_true, decide_eq_true_eq]
        exact le_total b.2 a.2)
      (scoredEntries qd gallery)
  exact List.Pairwise.filter _
    (hs.imp (fun hab => by simpa [descLe] using hab))

/-- Every ranked entry clears the threshold. -/
theorem rankedEntries_threshold (qd : List Descriptor)
    (gallery : List (String × Option (List Descriptor))) (threshold : ℚ) :
    ∀ e ∈ rankedEntries qd gallery threshold, threshold ≤ e.2 := by
  intro e he
  have := List.of_mem_filter he
  exact of_decide_eq_true this

/-- Claim C4: every successful result of `compare` is sorted in descending
order of similarity — for all adjacent pairs `(a, b)` of the result,
`score(a) ≥ score(b)` (the sentinel singletons are trivially sorted). -/
theorem compare_sorted (query : Option (List Descriptor))
    (gallery : List (String × Option (List Descriptor)))
    (maxResults : Nat) (threshold : ℚ) (res : List (String × ℚ))
    (h : ImageScan.compare query gallery maxResults threshold = Except.ok res) :
    res.Pairwise (fun a b => b.2 ≤ a.2) := by
  cases query with
  | none => simp [ImageScan.compare] at h
  | some qd =>
    simp only [ImageScan.compare] at h
    split at h
    · simp only [Except.ok.injEq] at h
      subst h
      exact List.pairwise_singleton _ _
    · split at h
      · simp only [Except.ok.injEq] at h
        subst h
        exact List.pairwise_singleton _ _
      · split at h
        · simp only [Except.ok.injEq] at h
          subst h
          exact List.pairwise_singleton _ _
        · simp only [Except.ok.injEq] at h
          subst h
          exact (rankedEntries_sorted qd gallery threshold).sublist
            (List.take_sublist _ _)

/-- Concrete instance of `compare_sorted`: the result on an empty gallery
is sorted. -/
theorem compare_sorted_witness :
    ([(("No matches" : String), (0 : ℚ))]).Pairwise
      (fun a b : String × ℚ => b.2 ≤ a.2) :=
  compare_sorted (some [[(1 : ℚ)]]) [] 3 (4/5) [("No matches", 0)] rfl

/-- Claim C5 counterexample: with `maxResults = 0` the returned list (a
sentinel singleton) is longer than `maxResults`. -/
theorem compare_bound_counterexample :
    ImageScan.compare (some [[(1 : ℚ)]]) [] 0 (4/5) =
      Except.ok [("No matches", 0)] ∧
    ¬ (([(("No matches" : String), (0 : ℚ))]).length ≤ 0) :=
  ⟨rfl, by decide⟩

/-- Claim C5, amended: the length of every `compare` result is at most
`max maxResults 1` — the bound `maxResults` itself holds whenever
`maxResults ≥ 1` (in particular at the default `3`), a sentinel singleton
exceeding it only for `maxResults = 0` — and every returned entry either
clears the threshold or is one of the three sentinel entries. -/
theorem compare_bound (query : Option (List Descriptor))
    (gallery : List (String × Option (List Descriptor)))
    (maxResults : Nat) (threshold : ℚ) (res : List (String × ℚ))
    (h : ImageScan.compare query gallery maxResults threshold = Except.ok res) :
    res.length ≤ max maxResults 1 ∧
    ∀ e ∈ res, threshold ≤ e.2 ∨ e = ("No matches", 0) ∨
      e = ("Could not extract features", 0) ∨
      e = ("No matches meet the threshold", 0) := by
  cases query with
  | none => simp [ImageScan.compare] at h
  | some qd =>
    simp only [ImageScan.compare] at h
    split at h
    · simp only [Except.ok.injEq] at h
      subst h
      refine ⟨by simp, ?_⟩
      intro e he
      simp only [List.mem_singleton] at he
      exact Or.inr (Or.inl he)
    · split at h
      · simp only [Except.ok.injEq] at h
        subst h
        refine ⟨by simp, ?_⟩
        intro e he
        simp only [List.mem_singleton] at he
        exact Or.inr (Or.inr (Or.inl he))
      · split at h
        · simp only [Except.ok.injEq] at h
          subst h
          refine ⟨by simp, ?_⟩
          intro e he
          simp only [List.mem_singleton] at he
          exact Or.inr (Or.inr (Or.inr he))
        · simp only [Except.ok.injEq] at h
          subst h
          constructor
          · calc ((rankedEntries qd gallery threshold).take maxResults).length
                ≤ maxResults := by
                  rw [List.length_take]
                  exact Nat.min_le_left _ _
              _ ≤ max maxResults 1 := Nat.le_max_left _ _
          · intro e he
            exact Or.inl (rankedEntries_threshold qd gallery threshold e
              ((List.take_sublist _ _).subset he))

/-- Concrete instance of `compare_bound`: the empty-gallery result at the
default parameters respects the amended bound. -/
theorem compare_bound_witness :
    ([(("No matches" : String), (0 : ℚ))]).length ≤ max 3 1 :=
  (compare_bound (some [[(1 : ℚ)]]) [] 3 (4/5) [("No matches", 0)] rfl).1

/-- Claim C1 counterexample: the sentinel conditions overlap — on an empty
gallery directory with a query that yields no descriptors, the result is
the empty-gallery sentinel `[("No matches", 0)]`, not
`[("Could not extract features", 0)]` as the unguarded second failure mode
demands. -/
theorem compare_sentinel_counterexample :
    ImageScan.compare (some ([] : List Descriptor)) [] 3 (4/5) =
      Except.ok [("No matches", 0)] ∧
    ([(("No matches" : String), (0 : ℚ))]) ≠
      [("Could not extract features", 0)] :=
  ⟨rfl, by decide⟩

/-- Claim C1, amended: each failure mode of `compare` is reported as a
single sentinel entry, the modes taken in the spec's listed order: an
empty gallery directory gives exactly `[("No matches", 0)]`; a non-empty
gallery with a query yielding no extractable descriptors gives exactly
`[("Could not extract features", 0)]`; a non-empty gallery and a query
with descriptors where no scored entry reaches the threshold gives exactly
`[("No matches meet the threshold", 0)]`. -/
theorem compare_sentinel_modes
    (gallery : List (String × Option (List Descriptor)))
    (qd : List Descriptor) (maxResults : Nat) (threshold : ℚ) :
    (ImageScan.compare (some qd) [] maxResults threshold =
      Except.ok [("No matches", 0)]) ∧
    (gallery ≠ [] → qd = [] →
      ImageScan.compare (some qd) gallery maxResults threshold =
        Except.ok [("Could not extract features", 0)]) ∧
    (gallery ≠ [] → qd ≠ [] →
      (∀ e ∈ scoredEntries qd gallery, e.2 < threshold) →
      ImageScan.compare (some qd) gallery maxResults threshold =
        Except.ok [("No matches meet the threshold", 0)]) := by
  refine ⟨rfl, ?_, ?_⟩
  · intro hg hq
    subst hq
    rcases gallery with _ | ⟨e, es⟩
    · exact absurd rfl hg
    · rfl
  · intro hg hq hlt
    have hrank : rankedEntries qd gallery threshold = [] := by
      rw [rankedEntries, List.filter_eq_nil_iff]
      intro e he
      rw [List.mem_mergeSort] at he
      simp only [decide_eq_true_eq, not_le]
      exact hlt e he
    rcases gallery with _ | ⟨g1, gs⟩
    · exact absurd rfl hg
    · rcases qd with _ | ⟨q1, qs⟩
      · exact absurd rfl hq
      · simp [ImageScan.compare, hrank]

/-- Concrete instance of `compare_sentinel_modes`: a gallery entry with a
single descriptor scores `0`, below the default threshold, so the
threshold sentinel is returned. -/
theorem compare_sentinel_modes_witness :
    ImageScan.compare (some [[(1 : ℚ)]]) [("apple", some [[(0 : ℚ)]])] 3 (4/5) =
      Except.ok [("No matches meet the threshold", 0)] :=
  (compare_sentinel_modes [("apple", some [[(0 : ℚ)]])] [[(1 : ℚ)]] 3 (4/5)).2.2
    (by decide) (by decide)
    (by
      intro e he
      have hcount : goodMatchCount [[(1 : ℚ)]] [[(0 : ℚ)]] = 0 :=
        goodMatchCount_of_short _ _ (by decide)
      have hsim : similarity [[(1 : ℚ)]] [[(0 : ℚ)]] = 0 := by
        rw [similarity, hcount]
        norm_num
      have he' : e = ("apple", similarity [[(1 : ℚ)]] [[(0 : ℚ)]]) := by
        simpa [scoredEntries] using he
      rw [he', hsim]
      norm_num)

end ImageScan
